import Mathlib

/-!
Shallow embedding of the signing core of `BaseWalletUnlocked`
(`src/packages/account/src/wallet/base-wallet-unlocked.ts`) together with the
collaborator operations it relies on (`Signer`, `hashMessage`,
`TransactionRequest.getTransactionId`, `TransactionRequest.updateWitnessByOwner`),
which belong to this repository but are not part of the shown slice and are
therefore modelled from the specification's contracts (sections 3, 4.1, 4.2, 6).

Asynchronous sequential TypeScript code is embedded as pure Lean functions that
additionally return the ordered list of collaborator events they perform, so
that ordering claims about the submission pipeline become statements about
those traces.  Fallible operations return `Except WalletError`.
-/

/-- Byte strings are modelled as lists of naturals. -/
abbrev Bytes := List Nat

/-- Network addresses are byte strings. -/
abbrev Address := Bytes

/-- Error taxonomy of the core, from section 7 of the design. -/
inductive WalletError where
  | unknownOwnerError
  | invalidInputError
  deriving Repr, DecidableEq

/-- Modelled from the spec: `hashMessage` from the hasher package (not in the
shown slice).  A domain-separated message-hash function: the leading tag `0`
is the domain separator that keeps message digests disjoint from transaction
digests; the body stands in for a collision-free hash (collisions are assumed
negligible by the spec, so the hash is modelled as an injective encoding). -/
def hashMessage (message : Bytes) : Bytes :=
  0 :: message

/-- Modelled from the spec: the signature computation of the key holder
(`Signer.sign`, not in the shown slice).  A deterministic, fixed-format
signature over a digest, a pure function of the stored private key and the
digest; modelled as a tagged, length-delimited injective pairing standing in
for the ECDSA computation. -/
def signDigest (privateKey digest : Bytes) : Bytes :=
  2 :: privateKey.length :: (privateKey ++ digest)

/-- Modelled from the spec: public-key derivation of the key holder
(`Signer`, not in the shown slice) — a pure, deterministic, injective function
of the private key, standing in for elliptic-curve point derivation. -/
def derivePublicKey (privateKey : Bytes) : Bytes :=
  3 :: privateKey

/-- Modelled from the spec: address derivation of the key holder — a pure,
deterministic function of the public key, standing in for hashing the
public key. -/
def deriveAddress (publicKey : Bytes) : Address :=
  4 :: publicKey

/-- Modelled from the spec: the `Signer` of the account package (not in the
shown slice).  Holds one private-key value; public key and address are
derived deterministically from it. -/
structure Signer where
  privateKey : Bytes
  deriving Repr, DecidableEq

/-- Public key of a signer, derived from its private key. -/
def Signer.publicKey (s : Signer) : Bytes :=
  derivePublicKey s.privateKey

/-- Address of a signer, derived from its public key. -/
def Signer.address (s : Signer) : Address :=
  deriveAddress s.publicKey

/-- Raw signature of a 32-byte digest with the signer's private key. -/
def Signer.sign (s : Signer) (digest : Bytes) : Bytes :=
  signDigest s.privateKey digest

/-- Modelled from the spec: the mutable structured transaction request of the
providers package (not in the shown slice).  Inputs optionally reference an
owner address; the witness list is an ordered sequence of signature-or-data
blobs; `metadata` stands for the remaining chain-scoped signable fields. -/
structure TransactionRequest where
  inputs : List (Option Address)
  outputs : List Bytes
  witnesses : List Bytes
  metadata : Bytes
  deriving Repr, DecidableEq

/-- Modelled from the spec: `transactionRequestify` from the providers package
(not in the shown slice) — normalises a transaction-request-like value into a
`TransactionRequest`; on a value that is already a structured request it
returns that request. -/
def transactionRequestify (tx : TransactionRequest) : TransactionRequest :=
  tx

/-- Owner addresses referenced by the transaction's inputs, in input order. -/
def TransactionRequest.inputOwners (tx : TransactionRequest) : List Address :=
  tx.inputs.filterMap id

/-- First-seen deduplication: keeps the first occurrence of every address,
dropping later repeats.  The accumulator holds the addresses already seen. -/
def firstSeenAux (seen : List Address) : List Address → List Address
  | [] => []
  | a :: rest =>
      if a ∈ seen then firstSeenAux seen rest
      else a :: firstSeenAux (a :: seen) rest

/-- Distinct input-owner addresses in first-seen order; witness slots are
assigned by position in this list (section 3's stable-indexing invariant). -/
def firstSeen (l : List Address) : List Address :=
  firstSeenAux [] l

/-- Modelled from the spec: `resolveWitnessIndex` of the transaction codec
(section 4.2, not in the shown slice).  Scans the transaction's inputs in
order and returns the witness-slot index associated with the first input
owned by `owner`; `none` if no input is owned by that address. -/
def resolveWitnessIndex (tx : TransactionRequest) (owner : Address) : Option Nat :=
  (firstSeen tx.inputOwners).indexOf? owner

/-- Placeholder blob used to pad intermediate witness slots. -/
def emptyWitness : Bytes := []

/-- Overwrites index `i` of the witness list with `sig`, growing the list
contiguously to `i` with empty placeholders when it is shorter. -/
def setWitness : List Bytes → Nat → Bytes → List Bytes
  | [], 0, sig => [sig]
  | [], Nat.succ n, sig => emptyWitness :: setWitness [] n sig
  | _ :: ws, 0, sig => sig :: ws
  | w :: ws, Nat.succ n, sig => w :: setWitness ws n sig

/-- Modelled from the spec: `TransactionRequest.updateWitnessByOwner` of the
providers package (section 4.2's `setWitnessAtOwner`, not in the shown slice).
Resolves the owner's witness index and overwrites (or appends, padding with
empty placeholders) that witness slot with the signature; fails with
`UnknownOwnerError` when the owner controls no input. -/
def TransactionRequest.updateWitnessByOwner (tx : TransactionRequest)
    (owner : Address) (sig : Bytes) : Except WalletError TransactionRequest :=
  match resolveWitnessIndex tx owner with
  | none => .error .unknownOwnerError
  | some i => .ok { tx with witnesses := setWitness tx.witnesses i sig }

/-- Modelled from the spec: serialization of the transaction's signable fields
(everything except the witness list's contents) bound to a chain id; an
injective encoding standing in for the canonical wire serialization. -/
def serializeSignable (tx : TransactionRequest) (chainId : Nat) : Bytes :=
  chainId :: tx.inputs.length ::
    (tx.inputs.flatMap fun o => match o with
      | none => [0]
      | some a => 1 :: a.length :: a) ++
    tx.outputs.length :: (tx.outputs.flatMap fun o => o.length :: o) ++
    tx.metadata

/-- Modelled from the spec: `TransactionRequest.getTransactionId` of the
providers package (section 4.2's `computeSigningDigest`, not in the shown
slice).  The chain-bound canonical digest of the transaction's signable
fields; the leading tag `1` is the transaction-digest domain, distinct from
the message-hash domain tag. -/
def TransactionRequest.getTransactionId (tx : TransactionRequest) (chainId : Nat) : Bytes :=
  1 :: serializeSignable tx chainId

/-- Collaborator events performed during a call, in execution order.  The
terminal submission and simulation events record the option flags handed to
the Provider. -/
inductive Event where
  | estimateCall
  | getChainId
  | witnessUpdate
  | submitCall (awaitExecution : Option Bool) (estimateTxDependencies : Bool)
  | simulateCall (utxoValidation : Bool) (estimateTxDependencies : Bool)
  deriving Repr, DecidableEq

/-- The external Provider collaborator, at its interface boundary (section 6):
a consensus chain id and a dependency-estimation transform that may rewrite
the transaction's inputs and outputs. -/
structure Provider where
  chainId : Nat
  estimateTxDependencies : TransactionRequest → TransactionRequest

/-- Options of `sendTransaction`; `estimateTxDependencies` defaults to `true`
(the TypeScript destructuring default), `awaitExecution` has no default. -/
structure ProviderSendTxParams where
  estimateTxDependencies : Bool := true
  awaitExecution : Option Bool := none
  deriving Repr, DecidableEq

/-- Options of `simulateTransaction`; `estimateTxDependencies` defaults to
`true`. -/
structure EstimateTransactionParams where
  estimateTxDependencies : Bool := true
  deriving Repr, DecidableEq

/-- Record of the arguments handed to `provider.sendTransaction`: the
populated transaction and the option flags. -/
structure SubmittedTx where
  tx : TransactionRequest
  awaitExecution : Option Bool
  estimateTxDependencies : Bool
  deriving Repr, DecidableEq

/-- Record of the arguments handed to `provider.call`: the populated
transaction and the option flags. -/
structure SimulatedTx where
  tx : TransactionRequest
  utxoValidation : Bool
  estimateTxDependencies : Bool
  deriving Repr, DecidableEq

/-- The unlocked base wallet: holds its signer (constructed once from the
private key at wallet construction) and its Provider collaborator. -/
structure BaseWalletUnlocked where
  signer : Signer
  provider : Provider

/-- Constructor of `BaseWalletUnlocked`: builds a `Signer` from the supplied
private key; the wallet's address is the signer's address. -/
def BaseWalletUnlocked.make (privateKey : Bytes) (provider : Provider) :
    BaseWalletUnlocked :=
  { signer := { privateKey }, provider }

/-- Address of the wallet, as installed by the constructor. -/
def BaseWalletUnlocked.address (w : BaseWalletUnlocked) : Address :=
  w.signer.address

/-- Accessor `privateKey`: returns the signer's private key. -/
def BaseWalletUnlocked.privateKey (w : BaseWalletUnlocked) : Bytes :=
  w.signer.privateKey

/-- Accessor `publicKey`: returns the signer's public key. -/
def BaseWalletUnlocked.publicKey (w : BaseWalletUnlocked) : Bytes :=
  w.signer.publicKey

/-- Embedding of `signMessage`: signs the domain-separated hash of the message
with the wallet's signer.  No collaborator event is performed. -/
def BaseWalletUnlocked.signMessage (w : BaseWalletUnlocked) (message : Bytes) :
    Bytes × List Event :=
  (w.signer.sign (hashMessage message), [])

/-- Embedding of `signTransaction`: retrieves the chain id from the Provider,
computes the chain-bound transaction digest and signs it with the wallet's
signer.  The transaction request is not modified. -/
def BaseWalletUnlocked.signTransaction (w : BaseWalletUnlocked)
    (transactionRequestLike : TransactionRequest) : Bytes × List Event :=
  let transactionRequest := transactionRequestify transactionRequestLike
  let chainId := w.provider.chainId
  let hashedTransaction := transactionRequest.getTransactionId chainId
  (w.signer.sign hashedTransaction, [Event.getChainId])

/-- Embedding of `populateTransactionWitnessesSignature`: computes
`signTransaction`, inserts the resulting signature into the witness slot
owned by the wallet's address, and returns the mutated transaction request;
a witness-insertion failure propagates unchanged. -/
def BaseWalletUnlocked.populateTransactionWitnessesSignature
    (w : BaseWalletUnlocked) (transactionRequestLike : TransactionRequest) :
    Except WalletError TransactionRequest × List Event :=
  let transactionRequest := transactionRequestify transactionRequestLike
  let (signedTransaction, t₁) := w.signTransaction transactionRequest
  match transactionRequest.updateWitnessByOwner w.address signedTransaction with
  | .error e => (.error e, t₁)
  | .ok tx' => (.ok tx', t₁ ++ [Event.witnessUpdate])

/-- Embedding of `sendTransaction`: optionally asks the Provider to estimate
transaction dependencies (which may rewrite the request), then populates the
witness signature, then hands the populated transaction to
`provider.sendTransaction` with `estimateTxDependencies: false`. -/
def BaseWalletUnlocked.sendTransaction (w : BaseWalletUnlocked)
    (transactionRequestLike : TransactionRequest)
    (params : ProviderSendTxParams) :
    Except WalletError SubmittedTx × List Event :=
  let transactionRequest := transactionRequestify transactionRequestLike
  let (tx₁, t₁) :=
    if params.estimateTxDependencies then
      (w.provider.estimateTxDependencies transactionRequest, [Event.estimateCall])
    else (transactionRequest, [])
  match w.populateTransactionWitnessesSignature tx₁ with
  | (.error e, t₂) => (.error e, t₁ ++ t₂)
  | (.ok tx₂, t₂) =>
      (.ok { tx := tx₂, awaitExecution := params.awaitExecution,
             estimateTxDependencies := false },
       t₁ ++ t₂ ++ [Event.submitCall params.awaitExecution false])

/-- Embedding of `simulateTransaction`: optionally asks the Provider to
estimate transaction dependencies, then populates the witness signature, then
hands the populated transaction to `provider.call` with
`utxoValidation: true` and `estimateTxDependencies: false`. -/
def BaseWalletUnlocked.simulateTransaction (w : BaseWalletUnlocked)
    (transactionRequestLike : TransactionRequest)
    (params : EstimateTransactionParams) :
    Except WalletError SimulatedTx × List Event :=
  let transactionRequest := transactionRequestify transactionRequestLike
  let (tx₁, t₁) :=
    if params.estimateTxDependencies then
      (w.provider.estimateTxDependencies transactionRequest, [Event.estimateCall])
    else (transactionRequest, [])
  match w.populateTransactionWitnessesSignature tx₁ with
  | (.error e, t₂) => (.error e, t₁ ++ t₂)
  | (.ok tx₂, t₂) =>
      (.ok { tx := tx₂, utxoValidation := true, estimateTxDependencies := false },
       t₁ ++ t₂ ++ [Event.simulateCall true false])

/-- Record of the arguments handed to the keystore-encryption collaborator:
the wallet's private key, its address and the caller's password. -/
structure KeystoreCall where
  privateKey : Bytes
  address : Address
  password : Bytes
  deriving Repr, DecidableEq

/-- Modelled from the spec: `encryptKeystoreWallet` (not in the shown slice) —
an opaque encrypted blob computed from the key, address and password; the
call record it receives is returned alongside so the data handed to the
collaborator is observable. -/
def encryptKeystoreWallet (privateKey : Bytes) (address : Address)
    (password : Bytes) : Bytes × KeystoreCall :=
  (5 :: privateKey.length :: (privateKey ++ address.length :: address ++ password),
   { privateKey, address, password })

/-- Embedding of `encrypt`: hands the wallet's private key and address to the
keystore-encryption collaborator and returns the encrypted blob. -/
def BaseWalletUnlocked.encrypt (w : BaseWalletUnlocked) (password : Bytes) :
    Bytes × KeystoreCall :=
  encryptKeystoreWallet w.privateKey w.address password

/-- Strict ordering of events in a trace: every occurrence of `e₁` comes
strictly before every occurrence of `e₂`. -/
def eventsOrdered (e₁ e₂ : Event) (t : List Event) : Prop :=
  ∀ i j : Fin t.length, t.get i = e₁ → t.get j = e₂ → (i : Nat) < j

instance (e₁ e₂ : Event) (t : List Event) : Decidable (eventsOrdered e₁ e₂ t) :=
  inferInstanceAs (Decidable (∀ i j : Fin t.length, t.get i = e₁ → t.get j = e₂ → (i : Nat) < j))

/-- Enumeration of the public operations of the wallet whose outputs are byte
strings (accessors, the two signing operations, and keystore encryption). -/
inductive PublicOp where
  | privateKeyGetter
  | publicKeyGetter
  | addressGetter
  | messageSign (message : Bytes)
  | transactionSign (tx : TransactionRequest)
  | encryptOp (password : Bytes)
  deriving Repr, DecidableEq

/-- Marks the two operations whose output is a signature. -/
def PublicOp.isSignOutput : PublicOp → Bool
  | .messageSign _ => true
  | .transactionSign _ => true
  | _ => false

/-- Byte-string output of each public operation of a wallet. -/
def publicOpOutput (w : BaseWalletUnlocked) : PublicOp → Bytes
  | .privateKeyGetter => w.privateKey
  | .publicKeyGetter => w.publicKey
  | .addressGetter => w.address
  | .messageSign m => (w.signMessage m).1
  | .transactionSign tx => (w.signTransaction tx).1
  | .encryptOp pw => (w.encrypt pw).1

/-- Modelled from the spec: a private key is valid when it is a 32-byte scalar
inside the valid range for the signature scheme — modelled as not being the
all-zero scalar. -/
def validPrivateKey (pk : Bytes) : Prop :=
  pk.length = 32 ∧ pk ≠ List.replicate 32 0

instance (pk : Bytes) : Decidable (validPrivateKey pk) :=
  inferInstanceAs (Decidable (pk.length = 32 ∧ pk ≠ List.replicate 32 0))

/-- Concrete private key used in the evaluation examples. -/
def examplePrivateKey : Bytes := [7, 8]

/-- Concrete provider used in the evaluation examples: chain id 9, an identity
dependency estimation. -/
def exampleProvider : Provider :=
  { chainId := 9, estimateTxDependencies := id }

/-- Concrete wallet used in the evaluation examples. -/
def exampleWallet : BaseWalletUnlocked :=
  BaseWalletUnlocked.make examplePrivateKey exampleProvider

/-- Concrete transaction whose second input is owned by the example wallet. -/
def exampleTx : TransactionRequest :=
  { inputs := [some [9], some exampleWallet.address], outputs := [[1]],
    witnesses := [], metadata := [2] }

/-- Concrete transaction none of whose inputs is owned by the example wallet. -/
def exampleNoOwnerTx : TransactionRequest :=
  { inputs := [some [9], none], outputs := [], witnesses := [], metadata := [] }

/-- Signature produced by the example wallet over the example transaction's
digest. -/
def exampleSignature : Bytes :=
  [2, 2, 7, 8, 1, 9, 2, 1, 1, 9, 1, 4, 4, 3, 7, 8, 1, 1, 1, 2]

/-- The example transaction after witness population: the signature sits in
slot 1, slot 0 is padded with the empty placeholder. -/
def examplePopulatedTx : TransactionRequest :=
  { exampleTx with witnesses := [[], exampleSignature] }

/-- Submission record produced by `sendTransaction` on the example inputs. -/
def exampleSubmitted : SubmittedTx :=
  { tx := examplePopulatedTx, awaitExecution := none, estimateTxDependencies := false }

/-- Simulation record produced by `simulateTransaction` on the example
inputs. -/
def exampleSimulated : SimulatedTx :=
  { tx := examplePopulatedTx, utxoValidation := true, estimateTxDependencies := false }

/-- Concrete 32-byte valid private key. -/
def exampleValidKey : Bytes := List.range 32
/-- Witness population either fails after the chain-id retrieval or succeeds,
appending a witness-update event. -/
theorem populate_cases (w : BaseWalletUnlocked) (tx : TransactionRequest) :
    (∃ e, w.populateTransactionWitnessesSignature tx = (.error e, [Event.getChainId])) ∨
    (∃ tx', w.populateTransactionWitnessesSignature tx = (.ok tx', [Event.getChainId, Event.witnessUpdate])) := by
  unfold BaseWalletUnlocked.populateTransactionWitnessesSignature
    BaseWalletUnlocked.signTransaction transactionRequestify
  rcases h : tx.updateWitnessByOwner w.address
      (w.signer.sign (tx.getTransactionId w.provider.chainId)) with e | tx'
  · exact Or.inl ⟨e, by simp [h]⟩
  · exact Or.inr ⟨tx', by simp [h]⟩

/-- The event trace of `sendTransaction` is one of four explicit sequences. -/
theorem sendTransaction_trace_cases (w : BaseWalletUnlocked) (tx : TransactionRequest)
    (ps : ProviderSendTxParams) :
    (w.sendTransaction tx ps).2 =
        [Event.estimateCall, Event.getChainId, Event.witnessUpdate,
         Event.submitCall ps.awaitExecution false] ∨
    (w.sendTransaction tx ps).2 =
        [Event.getChainId, Event.witnessUpdate, Event.submitCall ps.awaitExecution false] ∨
    (w.sendTransaction tx ps).2 = [Event.estimateCall, Event.getChainId] ∨
    (w.sendTransaction tx ps).2 = [Event.getChainId] := by
  unfold BaseWalletUnlocked.sendTransaction
  rcases hest : ps.estimateTxDependencies <;> simp only [hest, if_true, if_false, Bool.false_eq_true]
  · rcases populate_cases w (transactionRequestify tx) with ⟨e, h⟩ | ⟨tx', h⟩ <;>
      simp [h]
  · rcases populate_cases w (w.provider.estimateTxDependencies (transactionRequestify tx)) with
      ⟨e, h⟩ | ⟨tx', h⟩ <;> simp [h]

/-- The event trace of `simulateTransaction` is one of four explicit sequences. -/
theorem simulateTransaction_trace_cases (w : BaseWalletUnlocked) (tx : TransactionRequest)
    (pc : EstimateTransactionParams) :
    (w.simulateTransaction tx pc).2 =
        [Event.estimateCall, Event.getChainId, Event.witnessUpdate,
         Event.simulateCall true false] ∨
    (w.simulateTransaction tx pc).2 =
        [Event.getChainId, Event.witnessUpdate, Event.simulateCall true false] ∨
    (w.simulateTransaction tx pc).2 = [Event.estimateCall, Event.getChainId] ∨
    (w.simulateTransaction tx pc).2 = [Event.getChainId] := by
  unfold BaseWalletUnlocked.simulateTransaction
  rcases hest : pc.estimateTxDependencies <;> simp only [hest, if_true, if_false, Bool.false_eq_true]
  · rcases populate_cases w (transactionRequestify tx) with ⟨e, h⟩ | ⟨tx', h⟩ <;>
      simp [h]
  · rcases populate_cases w (w.provider.estimateTxDependencies (transactionRequestify tx)) with
      ⟨e, h⟩ | ⟨tx', h⟩ <;> simp [h]

/-- C1: in every `sendTransaction` and `simulateTransaction` call, dependency
estimation (when performed) strictly precedes witness population, witness
population strictly precedes the provider submission or simulation call, the
submission or simulation call only happens after witness population, and no
dependency estimation happens after witness population. -/
theorem c1_estimation_before_witnessing_before_submission
    (w : BaseWalletUnlocked) (tx : TransactionRequest)
    (ps : ProviderSendTxParams) (pc : EstimateTransactionParams) :
    (eventsOrdered .estimateCall .witnessUpdate (w.sendTransaction tx ps).2 ∧
     eventsOrdered .witnessUpdate (.submitCall ps.awaitExecution false)
       (w.sendTransaction tx ps).2 ∧
     (Event.submitCall ps.awaitExecution false ∈ (w.sendTransaction tx ps).2 →
       Event.witnessUpdate ∈ (w.sendTransaction tx ps).2)) ∧
    (eventsOrdered .estimateCall .witnessUpdate (w.simulateTransaction tx pc).2 ∧
     eventsOrdered .witnessUpdate (.simulateCall true false)
       (w.simulateTransaction tx pc).2 ∧
     (Event.simulateCall true false ∈ (w.simulateTransaction tx pc).2 →
       Event.witnessUpdate ∈ (w.simulateTransaction tx pc).2)) := by
  constructor
  · rcases sendTransaction_trace_cases w tx ps with h | h | h | h <;> rw [h] <;>
      rcases ps.awaitExecution with _ | b <;> first
        | decide
        | (rcases b <;> decide)
  · rcases simulateTransaction_trace_cases w tx pc with h | h | h | h <;> rw [h] <;> decide

/-- The result of `sendTransaction` is either an error or a submission record
carrying the caller's `awaitExecution` and a disabled estimation flag. -/
theorem sendTransaction_result_cases (w : BaseWalletUnlocked) (tx : TransactionRequest)
    (ps : ProviderSendTxParams) :
    (∃ e, (w.sendTransaction tx ps).1 = .error e) ∨
    (∃ tx₂, (w.sendTransaction tx ps).1 =
      .ok { tx := tx₂, awaitExecution := ps.awaitExecution, estimateTxDependencies := false }) := by
  unfold BaseWalletUnlocked.sendTransaction
  rcases hest : ps.estimateTxDependencies <;>
    simp only [hest, if_true, if_false, Bool.false_eq_true]
  · rcases populate_cases w (transactionRequestify tx) with ⟨e, h⟩ | ⟨tx', h⟩ <;> simp [h]
  · rcases populate_cases w (w.provider.estimateTxDependencies (transactionRequestify tx)) with
      ⟨e, h⟩ | ⟨tx', h⟩ <;> simp [h]

/-- The result of `simulateTransaction` is either an error or a simulation
record with UTXO validation enabled and a disabled estimation flag. -/
theorem simulateTransaction_result_cases (w : BaseWalletUnlocked) (tx : TransactionRequest)
    (pc : EstimateTransactionParams) :
    (∃ e, (w.simulateTransaction tx pc).1 = .error e) ∨
    (∃ tx₂, (w.simulateTransaction tx pc).1 =
      .ok { tx := tx₂, utxoValidation := true, estimateTxDependencies := false }) := by
  unfold BaseWalletUnlocked.simulateTransaction
  rcases hest : pc.estimateTxDependencies <;>
    simp only [hest, if_true, if_false, Bool.false_eq_true]
  · rcases populate_cases w (transactionRequestify tx) with ⟨e, h⟩ | ⟨tx', h⟩ <;> simp [h]
  · rcases populate_cases w (w.provider.estimateTxDependencies (transactionRequestify tx)) with
      ⟨e, h⟩ | ⟨tx', h⟩ <;> simp [h]

/-- C2: witness population computes `signTransaction` on the request, inserts
the resulting signature into the witness slot resolved for this wallet's
address, and returns the mutated transaction request. -/
theorem c2_populate_inserts_signature_at_owner_slot
    (w : BaseWalletUnlocked) (tx : TransactionRequest) (i : Nat)
    (h : resolveWitnessIndex tx w.address = some i) :
    (w.populateTransactionWitnessesSignature tx).1 =
      .ok { tx with witnesses := setWitness tx.witnesses i (w.signTransaction tx).1 } := by
  simp [BaseWalletUnlocked.populateTransactionWitnessesSignature,
    BaseWalletUnlocked.signTransaction, transactionRequestify,
    TransactionRequest.updateWitnessByOwner, h]

/-- C3: the submission entry point is always handed a disabled
`estimateTxDependencies` flag, and the simulation entry point is always handed
UTXO validation enabled together with a disabled `estimateTxDependencies`
flag. -/
theorem c3_provider_flags_disable_reestimation
    (w : BaseWalletUnlocked) (tx : TransactionRequest)
    (ps : ProviderSendTxParams) (pc : EstimateTransactionParams) :
    (∀ r, (w.sendTransaction tx ps).1 = .ok r → r.estimateTxDependencies = false) ∧
    (∀ r, (w.simulateTransaction tx pc).1 = .ok r →
        r.estimateTxDependencies = false ∧ r.utxoValidation = true) := by
  constructor
  · intro r hr
    rcases sendTransaction_result_cases w tx ps with ⟨e, h⟩ | ⟨tx₂, h⟩ <;> rw [h] at hr
    · exact absurd hr (by simp)
    · injection hr with hr; rw [← hr]
  · intro r hr
    rcases simulateTransaction_result_cases w tx pc with ⟨e, h⟩ | ⟨tx₂, h⟩ <;> rw [h] at hr
    · exact absurd hr (by simp)
    · injection hr with hr; rw [← hr]; exact ⟨rfl, rfl⟩

/-- Membership in the first-seen deduplication implies membership in the
original list. -/
theorem mem_of_mem_firstSeenAux {x : Address} :
    ∀ (seen l : List Address), x ∈ firstSeenAux seen l → x ∈ l := by
  intro seen l
  induction l generalizing seen with
  | nil => simp [firstSeenAux]
  | cons a rest ih =>
    simp only [firstSeenAux]
    split
    · intro h; exact List.mem_cons_of_mem _ (ih _ h)
    · intro h
      rcases List.mem_cons.mp h with h | h
      · exact h ▸ List.mem_cons_self a rest
      · exact List.mem_cons_of_mem _ (ih _ h)

/-- An owner controlling no input resolves to no witness index. -/
theorem resolveWitnessIndex_eq_none {tx : TransactionRequest} {owner : Address}
    (h : owner ∉ tx.inputOwners) : resolveWitnessIndex tx owner = none := by
  unfold resolveWitnessIndex firstSeen
  rw [List.indexOf?_eq_none_iff]
  intro x hx
  simp only [beq_iff_eq]
  rintro rfl
  exact h (mem_of_mem_firstSeenAux _ _ hx)

/-- C4: on a transaction none of whose inputs is owned by the wallet's
address, the witness-insertion step rejects the owner with
`UnknownOwnerError`, and witness population surfaces exactly that error. -/
theorem c4_populate_fails_with_unknown_owner
    (w : BaseWalletUnlocked) (tx : TransactionRequest)
    (h : w.address ∉ tx.inputOwners) :
    tx.updateWitnessByOwner w.address (w.signTransaction tx).1 =
      .error .unknownOwnerError ∧
    (w.populateTransactionWitnessesSignature tx).1 = .error .unknownOwnerError := by
  have hn := resolveWitnessIndex_eq_none h
  constructor
  · unfold TransactionRequest.updateWitnessByOwner
    rw [hn]
  · simp [BaseWalletUnlocked.populateTransactionWitnessesSignature,
      BaseWalletUnlocked.signTransaction, transactionRequestify,
      TransactionRequest.updateWitnessByOwner, hn]

/-- Amended C5: only the `privateKey` accessor returns the private-key value
itself; every other public operation (public key, address, both signing
operations, and the encrypted keystore blob) returns a value distinct from
the private key — and `encrypt` nonetheless hands the raw private key to the
keystore-encryption collaborator. -/
theorem c5_amended_only_accessor_returns_key
    (w : BaseWalletUnlocked) (op : PublicOp) (password : Bytes) :
    (publicOpOutput w op = w.privateKey → op = PublicOp.privateKeyGetter) ∧
    (w.encrypt password).2.privateKey = w.privateKey := by
  constructor
  · cases op with
    | privateKeyGetter => intro _; rfl
    | publicKeyGetter =>
      intro h
      exfalso
      have hl := congrArg List.length h
      simp [publicOpOutput, BaseWalletUnlocked.publicKey, Signer.publicKey,
        derivePublicKey, BaseWalletUnlocked.privateKey] at hl
    | addressGetter =>
      intro h
      exfalso
      have hl := congrArg List.length h
      simp [publicOpOutput, BaseWalletUnlocked.address, Signer.address,
        deriveAddress, Signer.publicKey, derivePublicKey,
        BaseWalletUnlocked.privateKey] at hl
      omega
    | messageSign m =>
      intro h
      exfalso
      have hl := congrArg List.length h
      simp [publicOpOutput, BaseWalletUnlocked.signMessage, Signer.sign,
        signDigest, hashMessage, BaseWalletUnlocked.privateKey] at hl
      omega
    | transactionSign tx =>
      intro h
      exfalso
      have hl := congrArg List.length h
      simp [publicOpOutput, BaseWalletUnlocked.signTransaction,
        transactionRequestify, Signer.sign, signDigest,
        TransactionRequest.getTransactionId, BaseWalletUnlocked.privateKey] at hl
      omega
    | encryptOp pw =>
      intro h
      exfalso
      have hl := congrArg List.length h
      simp [publicOpOutput, BaseWalletUnlocked.encrypt, encryptKeystoreWallet,
        BaseWalletUnlocked.privateKey] at hl
      omega
  · rfl

/-- Writing the same signature twice into the same witness slot equals writing
it once. -/
theorem setWitness_idem (ws : List Bytes) (i : Nat) (sig : Bytes) :
    setWitness (setWitness ws i sig) i sig = setWitness ws i sig := by
  induction ws generalizing i with
  | nil =>
    induction i with
    | zero => rfl
    | succ n ih => simp [setWitness, ih]
  | cons w ws ih =>
    cases i with
    | zero => rfl
    | succ n => simp [setWitness, ih]

/-- Witness insertion is idempotent: reinserting the same signature for the
same owner is a no-op. -/
theorem updateWitnessByOwner_idem (tx : TransactionRequest) (owner : Address)
    (sig : Bytes) (tx' : TransactionRequest)
    (h : tx.updateWitnessByOwner owner sig = .ok tx') :
    tx'.updateWitnessByOwner owner sig = .ok tx' := by
  unfold TransactionRequest.updateWitnessByOwner at h ⊢
  rcases hr : resolveWitnessIndex tx owner with _ | i <;> rw [hr] at h
  · exact absurd h (by simp)
  · injection h with h
    rw [← h]
    have hr' : resolveWitnessIndex
        { tx with witnesses := setWitness tx.witnesses i sig } owner = some i := hr
    rw [hr']
    simp [setWitness_idem]

/-- The result component of witness population is exactly the result of the
witness insertion performed with the freshly computed signature. -/
theorem populate_fst (w : BaseWalletUnlocked) (tx : TransactionRequest) :
    (w.populateTransactionWitnessesSignature tx).1 =
      tx.updateWitnessByOwner w.address
        (w.signer.sign (tx.getTransactionId w.provider.chainId)) := by
  unfold BaseWalletUnlocked.populateTransactionWitnessesSignature
    BaseWalletUnlocked.signTransaction transactionRequestify
  rcases hu : tx.updateWitnessByOwner w.address
      (w.signer.sign (tx.getTransactionId w.provider.chainId)) with e | tx' <;> simp [hu]

/-- C6: witness insertion with the same owner and signature is idempotent, and
witness population applied to its own output reproduces that output. -/
theorem c6_witness_insertion_idempotent :
    (∀ (tx : TransactionRequest) (owner : Address) (sig : Bytes)
        (tx' : TransactionRequest),
        tx.updateWitnessByOwner owner sig = .ok tx' →
        tx'.updateWitnessByOwner owner sig = .ok tx') ∧
    (∀ (w : BaseWalletUnlocked) (tx tx' : TransactionRequest),
        (w.populateTransactionWitnessesSignature tx).1 = .ok tx' →
        (w.populateTransactionWitnessesSignature tx').1 = .ok tx') := by
  constructor
  · exact updateWitnessByOwner_idem
  · intro w tx tx' h
    rw [populate_fst] at h ⊢
    have hd : tx'.getTransactionId w.provider.chainId =
        tx.getTransactionId w.provider.chainId := by
      unfold TransactionRequest.updateWitnessByOwner at h
      rcases hr : resolveWitnessIndex tx w.address with _ | i <;> rw [hr] at h
      · exact absurd h (by simp)
      · injection h with h
        rw [← h]
        rfl
    rw [hd]
    exact updateWitnessByOwner_idem tx w.address _ tx' h

/-- C7: `signTransaction` performs exactly one collaborator interaction — the
chain-id retrieval — and returns the signature, under the wallet's private
key, of the transaction digest bound to the retrieved chain id. -/
theorem c7_signTransaction_chain_bound_and_pure
    (w : BaseWalletUnlocked) (tx : TransactionRequest) :
    (w.signTransaction tx).2 = [Event.getChainId] ∧
    (w.signTransaction tx).1 =
      signDigest w.signer.privateKey (tx.getTransactionId w.provider.chainId) :=
  ⟨rfl, rfl⟩

/-- Signatures under one key agree only on equal digests. -/
theorem signDigest_inj {pk d₁ d₂ : Bytes} (h : signDigest pk d₁ = signDigest pk d₂) :
    d₁ = d₂ := by
  unfold signDigest at h
  injection h with h₁ h
  injection h with h₂ h
  exact List.append_cancel_left h

/-- C8: `signMessage` performs no collaborator call and signs the
domain-separated message hash; that hash is distinct from every transaction
digest, so message signatures and transaction signatures are never
byte-identical for the same key — even when the message bytes coincide with a
transaction serialization. -/
theorem c8_message_signature_domain_separated
    (w : BaseWalletUnlocked) (message : Bytes) (tx : TransactionRequest) :
    (w.signMessage message).2 = [] ∧
    (w.signMessage message).1 = signDigest w.signer.privateKey (hashMessage message) ∧
    hashMessage message ≠ tx.getTransactionId w.provider.chainId ∧
    (w.signMessage message).1 ≠ (w.signTransaction tx).1 := by
  refine ⟨rfl, rfl, ?_, ?_⟩
  · simp [hashMessage, TransactionRequest.getTransactionId]
  · intro hc
    have hc' : signDigest w.signer.privateKey (hashMessage message) =
        signDigest w.signer.privateKey
          (tx.getTransactionId w.provider.chainId) := hc
    have := signDigest_inj hc'
    simp [hashMessage, TransactionRequest.getTransactionId] at this

/-- C9: wallet construction is deterministic — two wallets built from the same
valid private-key bytes (with any providers) have identical addresses and
identical public keys. -/
theorem c9_derivation_deterministic (pk : Bytes) (p₁ p₂ : Provider)
    (_h : validPrivateKey pk) :
    (BaseWalletUnlocked.make pk p₁).address = (BaseWalletUnlocked.make pk p₂).address ∧
    (BaseWalletUnlocked.make pk p₁).publicKey = (BaseWalletUnlocked.make pk p₂).publicKey :=
  ⟨rfl, rfl⟩

/-- C10: opting out of dependency estimation suppresses it everywhere in the
call — the core performs no estimation event, and the flag handed to the
provider's submission or simulation entry point is also disabled. -/
theorem c10_opting_out_disables_all_estimation
    (w : BaseWalletUnlocked) (tx : TransactionRequest) (ae : Option Bool) :
    (Event.estimateCall ∉
        (w.sendTransaction tx { estimateTxDependencies := false, awaitExecution := ae }).2 ∧
      ∀ r, (w.sendTransaction tx
            { estimateTxDependencies := false, awaitExecution := ae }).1 = .ok r →
          r.estimateTxDependencies = false) ∧
    (Event.estimateCall ∉
        (w.simulateTransaction tx { estimateTxDependencies := false }).2 ∧
      ∀ r, (w.simulateTransaction tx { estimateTxDependencies := false }).1 = .ok r →
          r.estimateTxDependencies = false) := by
  constructor
  · constructor
    · unfold BaseWalletUnlocked.sendTransaction
      rcases populate_cases w (transactionRequestify tx) with ⟨e, h⟩ | ⟨tx', h⟩ <;>
        simp [h]
    · intro r hr
      rcases sendTransaction_result_cases w tx
          { estimateTxDependencies := false, awaitExecution := ae } with ⟨e, h⟩ | ⟨tx₂, h⟩ <;>
        rw [h] at hr
      · exact absurd hr (by simp)
      · injection hr with hr; rw [← hr]
  · constructor
    · unfold BaseWalletUnlocked.simulateTransaction
      rcases populate_cases w (transactionRequestify tx) with ⟨e, h⟩ | ⟨tx', h⟩ <;>
        simp [h]
    · intro r hr
      rcases simulateTransaction_result_cases w tx
          { estimateTxDependencies := false } with ⟨e, h⟩ | ⟨tx₂, h⟩ <;>
        rw [h] at hr
      · exact absurd hr (by simp)
      · injection hr with hr; rw [← hr]


/-- C5 counterexample: the `privateKey` accessor is a public operation that is
not a signing operation, yet it returns the wallet's private-key value
verbatim, refuting the claim that no operation other than signing exposes the
key. -/
theorem c5_counterexample_accessor_returns_key :
    PublicOp.privateKeyGetter.isSignOutput = false ∧
    publicOpOutput exampleWallet PublicOp.privateKeyGetter = examplePrivateKey ∧
    exampleWallet.signer.privateKey = examplePrivateKey :=
  ⟨rfl, rfl, rfl⟩

/-- Witness for C1 at a concrete call with default options. -/
theorem c1_witness_concrete_call :
    (eventsOrdered .estimateCall .witnessUpdate
        (exampleWallet.sendTransaction exampleTx {}).2 ∧
      eventsOrdered .witnessUpdate (.submitCall none false)
        (exampleWallet.sendTransaction exampleTx {}).2 ∧
      (Event.submitCall none false ∈ (exampleWallet.sendTransaction exampleTx {}).2 →
        Event.witnessUpdate ∈ (exampleWallet.sendTransaction exampleTx {}).2)) ∧
    (eventsOrdered .estimateCall .witnessUpdate
        (exampleWallet.simulateTransaction exampleTx {}).2 ∧
      eventsOrdered .witnessUpdate (.simulateCall true false)
        (exampleWallet.simulateTransaction exampleTx {}).2 ∧
      (Event.simulateCall true false ∈ (exampleWallet.simulateTransaction exampleTx {}).2 →
        Event.witnessUpdate ∈ (exampleWallet.simulateTransaction exampleTx {}).2)) :=
  c1_estimation_before_witnessing_before_submission exampleWallet exampleTx {} {}

/-- Witness for C2: on the example transaction the wallet's address resolves
to witness slot 1 and population inserts the computed signature there. -/
theorem c2_witness_concrete_call :
    resolveWitnessIndex exampleTx exampleWallet.address = some 1 ∧
    (exampleWallet.populateTransactionWitnessesSignature exampleTx).1 =
      .ok { exampleTx with
            witnesses :=
              setWitness exampleTx.witnesses 1
                (exampleWallet.signTransaction exampleTx).1 } :=
  ⟨rfl, c2_populate_inserts_signature_at_owner_slot exampleWallet exampleTx 1 rfl⟩

/-- Witness for C3 at a concrete call with default options. -/
theorem c3_witness_concrete_call :
    (exampleWallet.sendTransaction exampleTx {}).1 = .ok exampleSubmitted ∧
    exampleSubmitted.estimateTxDependencies = false ∧
    (exampleWallet.simulateTransaction exampleTx {}).1 = .ok exampleSimulated ∧
    exampleSimulated.estimateTxDependencies = false ∧
    exampleSimulated.utxoValidation = true :=
  ⟨rfl,
   (c3_provider_flags_disable_reestimation exampleWallet exampleTx {} {}).1
     exampleSubmitted rfl,
   rfl,
   ((c3_provider_flags_disable_reestimation exampleWallet exampleTx {} {}).2
     exampleSimulated rfl).1,
   ((c3_provider_flags_disable_reestimation exampleWallet exampleTx {} {}).2
     exampleSimulated rfl).2⟩

/-- Witness for C4: a concrete transaction with no input owned by the example
wallet makes witness insertion and population fail with `UnknownOwnerError`. -/
theorem c4_witness_concrete_call :
    exampleWallet.address ∉ exampleNoOwnerTx.inputOwners ∧
    exampleNoOwnerTx.updateWitnessByOwner exampleWallet.address
        (exampleWallet.signTransaction exampleNoOwnerTx).1 =
      .error .unknownOwnerError ∧
    (exampleWallet.populateTransactionWitnessesSignature exampleNoOwnerTx).1 =
      .error .unknownOwnerError :=
  ⟨by decide,
   (c4_populate_fails_with_unknown_owner exampleWallet exampleNoOwnerTx (by decide)).1,
   (c4_populate_fails_with_unknown_owner exampleWallet exampleNoOwnerTx (by decide)).2⟩

/-- Witness for the amended C5 at a concrete wallet. -/
theorem c5_witness_concrete_call :
    publicOpOutput exampleWallet PublicOp.privateKeyGetter = exampleWallet.privateKey ∧
    PublicOp.privateKeyGetter = PublicOp.privateKeyGetter ∧
    (exampleWallet.encrypt [1]).2.privateKey = exampleWallet.privateKey :=
  ⟨rfl,
   (c5_amended_only_accessor_returns_key exampleWallet PublicOp.privateKeyGetter [1]).1 rfl,
   (c5_amended_only_accessor_returns_key exampleWallet PublicOp.privateKeyGetter [1]).2⟩

/-- Witness for C6: inserting the example signature twice, and populating
twice, reproduce the singly-populated example transaction. -/
theorem c6_witness_concrete_call :
    exampleTx.updateWitnessByOwner exampleWallet.address exampleSignature =
      .ok examplePopulatedTx ∧
    examplePopulatedTx.updateWitnessByOwner exampleWallet.address exampleSignature =
      .ok examplePopulatedTx ∧
    (exampleWallet.populateTransactionWitnessesSignature exampleTx).1 =
      .ok examplePopulatedTx ∧
    (exampleWallet.populateTransactionWitnessesSignature examplePopulatedTx).1 =
      .ok examplePopulatedTx :=
  ⟨rfl,
   c6_witness_insertion_idempotent.1 exampleTx exampleWallet.address exampleSignature
     examplePopulatedTx rfl,
   rfl,
   c6_witness_insertion_idempotent.2 exampleWallet exampleTx examplePopulatedTx rfl⟩

/-- Witness for C8 at a concrete message and transaction. -/
theorem c8_witness_concrete_call :
    (exampleWallet.signMessage [104]).2 = [] ∧
    (exampleWallet.signMessage [104]).1 =
      signDigest exampleWallet.signer.privateKey (hashMessage [104]) ∧
    hashMessage [104] ≠ exampleTx.getTransactionId exampleWallet.provider.chainId ∧
    (exampleWallet.signMessage [104]).1 ≠ (exampleWallet.signTransaction exampleTx).1 :=
  c8_message_signature_domain_separated exampleWallet [104] exampleTx

/-- Witness for C9 at a concrete valid 32-byte key. -/
theorem c9_witness_concrete_call :
    validPrivateKey exampleValidKey ∧
    (BaseWalletUnlocked.make exampleValidKey exampleProvider).address =
      (BaseWalletUnlocked.make exampleValidKey exampleProvider).address ∧
    (BaseWalletUnlocked.make exampleValidKey exampleProvider).publicKey =
      (BaseWalletUnlocked.make exampleValidKey exampleProvider).publicKey :=
  ⟨by decide,
   (c9_derivation_deterministic exampleValidKey exampleProvider exampleProvider
     (by decide)).1,
   (c9_derivation_deterministic exampleValidKey exampleProvider exampleProvider
     (by decide)).2⟩

/-- Witness for C10 at a concrete call with estimation opted out. -/
theorem c10_witness_concrete_call :
    Event.estimateCall ∉
      (exampleWallet.sendTransaction exampleTx
        { estimateTxDependencies := false, awaitExecution := none }).2 ∧
    (exampleWallet.sendTransaction exampleTx
        { estimateTxDependencies := false, awaitExecution := none }).1 =
      .ok exampleSubmitted ∧
    exampleSubmitted.estimateTxDependencies = false ∧
    Event.estimateCall ∉
      (exampleWallet.simulateTransaction exampleTx { estimateTxDependencies := false }).2 ∧
    (exampleWallet.simulateTransaction exampleTx { estimateTxDependencies := false }).1 =
      .ok exampleSimulated ∧
    exampleSimulated.estimateTxDependencies = false :=
  ⟨(c10_opting_out_disables_all_estimation exampleWallet exampleTx none).1.1,
   rfl,
   (c10_opting_out_disables_all_estimation exampleWallet exampleTx none).1.2
     exampleSubmitted rfl,
   (c10_opting_out_disables_all_estimation exampleWallet exampleTx none).2.1,
   rfl,
   (c10_opting_out_disables_all_estimation exampleWallet exampleTx none).2.2
     exampleSimulated rfl⟩
